import Mathlib

/-!
Verification development for the hardware-wallet signing core
(`src/core/src/apps/monero/sign_tx.py` and companions).

The dispatcher `_sign_tx_dispatch` and the outer request/response loop
`sign_tx` are embedded directly from the source.  The per-step handler
modules (`step_01_init_transaction` … `step_10_sign_final`), the session
`State` object and the wire primitive `ctx.read_any` are not part of the
excerpted sources; where a definition depends on them it is modelled from
the specification and says so in its doc comment.
-/

namespace Spec2Proof

/-- The request kinds of the Monero signing protocol, one per
`MessageType.MoneroTransaction*Request` handled by `_sign_tx_dispatch`;
`UnknownRequest` stands for every other wire message type (the dispatcher's
`else` branch). -/
inductive MsgKind
  | InitRequest
  | SetInputRequest
  | InputViniRequest
  | AllInputsSetRequest
  | SetOutputRequest
  | AllOutSetRequest
  | SignInputRequest
  | FinalRequest
  | UnknownRequest
deriving DecidableEq, Repr

/-- The error taxonomy of the signing engine (spec §7): wrong kind or index,
integrity failure, count ceiling, and the dispatcher's own
`wire.DataError("Unknown message")` for unhandled wire types. -/
inductive EngineError
  | protocolSequenceError
  | integrityError
  | limitExceededError
  | dataError
deriving DecidableEq, Repr

/-- Order of the Ed25519 prime subgroup used for Monero scalar arithmetic:
the commitment sums are compared in the arithmetic of the commitment
group's scalar field. -/
def curveOrder : Nat := 2 ^ 252 + 27742317777372353535851937790883648493

/-- Modelled from the spec: the protocol's hard ceiling on the declared
input/output counts, enforced at INIT (`LimitExceededError`).  The exact
numeric value is not fixed by the excerpted sources; only its existence and
its enforcement point matter here. -/
def maxItemCount : Nat := 16

/-- Modelled from the spec: `derive_item_key(session_secret, index)` —
deterministic and one-way from the secret, with two different indices
yielding unrelated keys.  Collision resistance is idealised as injectivity
via the pairing function. -/
def derive_item_key (s i : Nat) : Nat := Nat.pair s i

/-- Modelled from the spec: `tag(session_secret, index, payload)` — a
message-authentication value over the payload keyed by `derive_item_key`.
The MAC is idealised as an injective function of key and payload. -/
def tag (s i p : Nat) : Nat := Nat.pair (derive_item_key s i) p

/-- Modelled from the spec: `verify(session_secret, index, payload, tag)`
recomputes the tag and compares. -/
def verify (s i p t : Nat) : Bool := t == tag s i p

/-- Modelled from the spec: `session_secret` is derived once at session
start from the signing key material. -/
def deriveSecret (km : Nat) : Nat := Nat.pair km 1

/-- Modelled from the spec: the Session record (§3) — expected counts fixed
at INIT, per-phase cursors, the two running commitment sums, the session
secret (absent until INIT derives it) and the per-input signatures
assembled so far. -/
structure Session where
  expInputs : Nat := 0
  expOutputs : Nat := 0
  inputCursor : Nat := 0
  viniCursor : Nat := 0
  outputCursor : Nat := 0
  signCursor : Nat := 0
  pseudoSum : Nat := 0
  outSum : Nat := 0
  secret : Option Nat := none
  sigs : List Nat := []
deriving DecidableEq, Repr

/-- The session as allocated by `sign_tx` (`state = State(ctx)`) before the
first request is dispatched: empty, with no secret material. -/
def initialSession : Session := {}

/-- The responses emitted by the engine, one per handled request kind.
`setInputAck` carries the offloaded per-input state with its tag;
`signInputAck` carries one per-input signature; `finalAck` carries the
assembled signatures. -/
inductive Response
  | initAck
  | setInputAck (payload tagv : Nat)
  | viniAck
  | inputsSetAck
  | setOutputAck
  | outputsSetAck
  | signInputAck (sig : Nat)
  | finalAck (sigs : List Nat)
deriving DecidableEq, Repr

/-- The typed requests of the protocol.  Input/output descriptors are
abstracted to the blinding mask they contribute to the running commitment
sums; offloaded data returns as `(index, payload, tag)`. -/
inductive Request
  | initReq (nIn nOut : Nat)
  | setInput (idx mask : Nat)
  | inputVini (idx payload tagv : Nat)
  | allInputsSet
  | setOutput (idx mask : Nat)
  | allOutSet
  | signInput (idx payload tagv : Nat)
  | finalReq
  | unknownReq
deriving DecidableEq, Repr

/-- The wire message type of a request. -/
def Request.kind : Request → MsgKind
  | .initReq _ _ => .InitRequest
  | .setInput _ _ => .SetInputRequest
  | .inputVini _ _ _ => .InputViniRequest
  | .allInputsSet => .AllInputsSetRequest
  | .setOutput _ _ => .SetOutputRequest
  | .allOutSet => .AllOutSetRequest
  | .signInput _ _ _ => .SignInputRequest
  | .finalReq => .FinalRequest
  | .unknownReq => .UnknownRequest

/-- Modelled from the spec: `step_01_init_transaction.init_transaction` —
rejects a declared count above the ceiling with `LimitExceededError`
before any secret is derived, otherwise fixes the expected counts and
derives the session secret. -/
def init_transaction (km : Nat) (st : Session) (nIn nOut : Nat) :
    Except EngineError (Session × Response) :=
  if maxItemCount < nIn ∨ maxItemCount < nOut then
    .error .limitExceededError
  else
    .ok ({ st with expInputs := nIn, expOutputs := nOut,
                   secret := some (deriveSecret km) },
         .initAck)

/-- Modelled from the spec: `step_02_set_input.set_input` — the declared
index must equal `input_cursor` and an input beyond the declared count is
rejected; the input's mask is folded into the running pseudo-output sum in
the scalar field, and the per-input state is offloaded under a tag bound to
its index. -/
def set_input (st : Session) (idx mask : Nat) :
    Except EngineError (Session × Response) :=
  if idx ≠ st.inputCursor then .error .protocolSequenceError
  else if st.expInputs ≤ st.inputCursor then .error .protocolSequenceError
  else
    .ok ({ st with inputCursor := st.inputCursor + 1,
                   pseudoSum := (st.pseudoSum + mask) % curveOrder },
         .setInputAck mask (tag (st.secret.getD 0) idx mask))

/-- Modelled from the spec: `step_04_input_vini.input_vini` — the declared
index must equal the vini cursor and stay below the declared input count;
the offloaded payload must pass tag verification for exactly that index,
else `IntegrityError`. -/
def input_vini (st : Session) (idx payload tagv : Nat) :
    Except EngineError (Session × Response) :=
  if idx ≠ st.viniCursor then .error .protocolSequenceError
  else if st.expInputs ≤ st.viniCursor then .error .protocolSequenceError
  else if verify (st.secret.getD 0) idx payload tagv then
    .ok ({ st with viniCursor := st.viniCursor + 1 }, .viniAck)
  else .error .integrityError

/-- Modelled from the spec: `step_05_all_inputs_set.all_inputs_set` — the
barrier is legal only once every declared input has been set and folded. -/
def all_inputs_set (st : Session) :
    Except EngineError (Session × Response) :=
  if st.inputCursor = st.expInputs ∧ st.viniCursor = st.expInputs then
    .ok (st, .inputsSetAck)
  else .error .protocolSequenceError

/-- Modelled from the spec: `step_06_set_output.set_output` — the declared
index must equal `output_cursor` and stay below the declared output count;
the output's mask is folded into the running output-commitment sum in the
scalar field. -/
def set_output (st : Session) (idx mask : Nat) :
    Except EngineError (Session × Response) :=
  if idx ≠ st.outputCursor then .error .protocolSequenceError
  else if st.expOutputs ≤ st.outputCursor then .error .protocolSequenceError
  else
    .ok ({ st with outputCursor := st.outputCursor + 1,
                   outSum := (st.outSum + mask) % curveOrder },
         .setOutputAck)

/-- Modelled from the spec: `step_07_all_outputs_set.all_outputs_set` — the
barrier requires every declared output to have been processed, then checks
the value-balance invariant `pseudo_output_sum == output_commitment_sum`
in the group's scalar arithmetic; a mismatch is `IntegrityError`. -/
def all_outputs_set (st : Session) :
    Except EngineError (Session × Response) :=
  if st.outputCursor ≠ st.expOutputs then .error .protocolSequenceError
  else if st.pseudoSum % curveOrder = st.outSum % curveOrder then
    .ok (st, .outputsSetAck)
  else .error .integrityError

/-- Modelled from the spec: `step_09_sign_input.sign_input` — the declared
index must equal the signing cursor and stay below the declared input
count; the offloaded payload must pass tag verification for exactly that
index (`IntegrityError` otherwise); on success one per-input signature is
produced with the external keychain. -/
def sign_input (km : Nat) (st : Session) (idx payload tagv : Nat) :
    Except EngineError (Session × Response) :=
  if idx ≠ st.signCursor then .error .protocolSequenceError
  else if st.expInputs ≤ st.signCursor then .error .protocolSequenceError
  else if verify (st.secret.getD 0) idx payload tagv then
    .ok ({ st with signCursor := st.signCursor + 1,
                   sigs := st.sigs ++ [Nat.pair km payload] },
         .signInputAck (Nat.pair km payload))
  else .error .integrityError

/-- Modelled from the spec: `step_10_sign_final.final_msg` — assembles the
per-input signatures into the final acknowledgment. -/
def final_msg (st : Session) : Response := .finalAck st.sigs

/-- One dispatcher round: the updated session, the response, and the set of
wire message types accepted next (`none` after FINAL). -/
abbrev DispatchOut := Session × Response × Option (List MsgKind)

/-- Embedding of `_sign_tx_dispatch`: routes one request to its step
handler and pairs the handler's result with the tuple of accepted next
message types, exactly as written in the source; any other wire type hits
the final `else` and raises `wire.DataError("Unknown message")`. -/
def monero_dispatch (km : Nat) (st : Session) (msg : Request) :
    Except EngineError DispatchOut :=
  match msg with
  | .initReq nIn nOut =>
      (init_transaction km st nIn nOut).map
        (fun p => (p.1, p.2, some [MsgKind.SetInputRequest]))
  | .setInput idx mask =>
      (set_input st idx mask).map
        (fun p => (p.1, p.2,
          some [MsgKind.SetInputRequest, MsgKind.InputViniRequest]))
  | .inputVini idx payload tagv =>
      (input_vini st idx payload tagv).map
        (fun p => (p.1, p.2,
          some [MsgKind.InputViniRequest, MsgKind.AllInputsSetRequest]))
  | .allInputsSet =>
      (all_inputs_set st).map
        (fun p => (p.1, p.2, some [MsgKind.SetOutputRequest]))
  | .setOutput idx mask =>
      (set_output st idx mask).map
        (fun p => (p.1, p.2,
          some [MsgKind.SetOutputRequest, MsgKind.AllOutSetRequest]))
  | .allOutSet =>
      (all_outputs_set st).map
        (fun p => (p.1, p.2, some [MsgKind.SignInputRequest]))
  | .signInput idx payload tagv =>
      (sign_input km st idx payload tagv).map
        (fun p => (p.1, p.2,
          some [MsgKind.SignInputRequest, MsgKind.FinalRequest]))
  | .finalReq =>
      .ok ({ st with secret := none }, final_msg st, none)
  | .unknownReq => .error .dataError

/-- The "On success advances to" column of the phase table (§4.2), keyed by
the request kind just handled; `none` marks the terminal FINAL row.  These
are letter for letter the accept tuples of `_sign_tx_dispatch`. -/
def tableAccept : MsgKind → Option (List MsgKind)
  | .InitRequest => some [.SetInputRequest]
  | .SetInputRequest => some [.SetInputRequest, .InputViniRequest]
  | .InputViniRequest => some [.InputViniRequest, .AllInputsSetRequest]
  | .AllInputsSetRequest => some [.SetOutputRequest]
  | .SetOutputRequest => some [.SetOutputRequest, .AllOutSetRequest]
  | .AllOutSetRequest => some [.SignInputRequest]
  | .SignInputRequest => some [.SignInputRequest, .FinalRequest]
  | .FinalRequest => none
  | .UnknownRequest => none

/-- The position of each request kind in the strict phase order
INIT < SET_INPUT < INPUT_VINI < ALL_INPUTS_SET < SET_OUTPUT <
ALL_OUTPUTS_SET < SIGN_INPUT < FINAL. -/
def phaseIdx : MsgKind → Nat
  | .InitRequest => 0
  | .SetInputRequest => 1
  | .InputViniRequest => 2
  | .AllInputsSetRequest => 3
  | .SetOutputRequest => 4
  | .AllOutSetRequest => 5
  | .SignInputRequest => 6
  | .FinalRequest => 7
  | .UnknownRequest => 8

/-- `kindStep a b` holds when a request of kind `b` is in the accept set
returned alongside the response to a request of kind `a`. -/
def kindStep (a b : MsgKind) : Prop := b ∈ (tableAccept a).getD []

instance (a b : MsgKind) : Decidable (kindStep a b) :=
  inferInstanceAs (Decidable (b ∈ (tableAccept a).getD []))

/-- The observable events of one run of `sign_tx`: allocation of the
session state (`state = State(ctx)`), one `ctx.write(result_msg)` per
accepted non-final request, and one read of the next request
(`ctx.read_any(accept_msgs)`). -/
inductive Ev
  | sessionCreated
  | wroteResp (r : Response)
  | readReq (r : Request)
deriving DecidableEq, Repr

/-- Outcome of a run of the dispatch loop: `finished` returns the final
acknowledgment (the value `sign_tx` returns after `break`), `aborted`
records the fatal error and the session at abort time, and `outOfInput`
marks a host that stopped supplying requests while the loop still waited
for one of `allowed`.  Each carries the responses written so far. -/
inductive RunResult
  | finished (written : List Response) (finalResp : Response)
  | aborted (written : List Response) (e : EngineError) (st : Session)
  | outOfInput (written : List Response) (allowed : List MsgKind) (st : Session)
deriving DecidableEq, Repr

/-- Prepend one written response to a run outcome. -/
def RunResult.addW (resp : Response) : RunResult → RunResult
  | .finished w f => .finished (resp :: w) f
  | .aborted w e st => .aborted (resp :: w) e st
  | .outOfInput w a st => .outOfInput (resp :: w) a st

/-- Embedding of the `while True` loop of `sign_tx`: dispatch the current
request; if the accept set is `none` (FINAL) break and return the result
message; otherwise write the response and read the next request, which
must be of one of the accepted kinds.  The gate on the read is
`ctx.read_any(accept_msgs)`, modelled from the spec: a request whose kind
is not currently legal is rejected with `ProtocolSequenceError` and the
session is aborted. -/
def signLoop (km : Nat) (st : Session) (cur : Request) (rest : List Request) :
    List Ev × RunResult :=
  match monero_dispatch km st cur with
  | .error e => ([], .aborted [] e st)
  | .ok (_, resp, none) => ([], .finished [] resp)
  | .ok (st', resp, some allowed) =>
    match rest with
    | [] => ([.wroteResp resp], .outOfInput [resp] allowed st')
    | r :: rs =>
      if r.kind ∈ allowed then
        let out := signLoop km st' r rs
        (.wroteResp resp :: .readReq r :: out.1, out.2.addW resp)
      else
        ([.wroteResp resp, .readReq r],
         .aborted [resp] .protocolSequenceError st')

/-- Embedding of `sign_tx`: the wire layer delivers the first request
(which starts this workflow only when it is an INIT request — the
registration is modelled from the spec), the session state is allocated
(`state = State(ctx)`), and the dispatch loop runs over the remaining
requests.  The event trace records the order of these effects. -/
def sign_tx (km : Nat) (reqs : List Request) : List Ev × RunResult :=
  match reqs with
  | [] => ([], .outOfInput [] [MsgKind.InitRequest] initialSession)
  | r :: rs =>
    if r.kind = MsgKind.InitRequest then
      let out := signLoop km initialSession r rs
      (.readReq r :: .sessionCreated :: out.1, out.2)
    else
      ([.readReq r], .aborted [] .protocolSequenceError initialSession)

/-- `altFrom true evs` holds when write and read events strictly alternate
in `evs`, starting with a write: one response is written per accepted
request and only then is the next request read. -/
def altFrom : Bool → List Ev → Bool
  | _, [] => true
  | true, .wroteResp _ :: r => altFrom false r
  | false, .readReq _ :: r => altFrom true r
  | _, _ => false

/-- Number of responses written in a trace. -/
def countW (evs : List Ev) : Nat :=
  (evs.filter fun e => match e with | .wroteResp _ => true | _ => false).length

/-- Number of requests read in a trace. -/
def countR (evs : List Ev) : Nat :=
  (evs.filter fun e => match e with | .readReq _ => true | _ => false).length

/-- The last request read in a trace, defaulting to `cur` when the trace
reads none. -/
def lastRead : Request → List Ev → Request
  | cur, [] => cur
  | _, .readReq r :: tl => lastRead r tl
  | cur, _ :: tl => lastRead cur tl

/-! ## Cardano auxiliary data (`src/core/src/apps/cardano/auxiliary_data.py`) -/

/-- `wire.ProcessError` as raised by `assert_cond`. -/
inductive WireError
  | processError (msg : String)
deriving DecidableEq, Repr

/-- `CardanoGovernanceRegistrationFormat`. -/
inductive GovFormat
  | CIP15
  | CIP36
deriving DecidableEq, BEq, Repr

/-- One `CardanoGovernanceDelegation`: a voting public key (bytes, modelled
as a list of byte values) and a weight. -/
structure GovDelegation where
  voting_public_key : List Nat
  weight : Nat
deriving DecidableEq, Repr

/-- `CardanoGovernanceRegistrationParametersType`.  The staking-path schema
match (`SCHEMA_STAKING_ANY_ACCOUNT.match`) and
`addresses.validate_address_parameters` are external to the excerpted
sources; their outcomes are carried as boolean fields, and the reward
address type is reduced to whether it is BYRON (the only value
`_validate_governance_registration_parameters` distinguishes). -/
structure GovParams where
  voting_public_key : Option (List Nat) := none
  delegations : List GovDelegation := []
  format : GovFormat := .CIP15
  voting_purpose : Option Nat := none
  staking_path_ok : Bool := true
  reward_address_is_byron : Bool := false
  reward_address_params_ok : Bool := true
deriving DecidableEq, Repr

/-- `CardanoTxAuxiliaryData`: optional 32-byte hash and optional governance
registration parameters. -/
structure CardanoTxAuxiliaryData where
  hash : Option (List Nat) := none
  governance_registration_parameters : Option GovParams := none
deriving DecidableEq, Repr

/-- `assert_cond`: raise `wire.ProcessError("Invalid auxiliary data")`
unless the condition holds. -/
def assert_cond (condition : Bool) : Except WireError Unit :=
  if condition then .ok () else .error (.processError "Invalid auxiliary data")

/-- `_validate_voting_public_key`: the key must be exactly 32 bytes. -/
def validate_voting_public_key (key : List Nat) : Except WireError Unit :=
  assert_cond (key.length == 32)

/-- `_validate_delegations`: at most 32 delegations, each key valid. -/
def validate_delegations (ds : List GovDelegation) : Except WireError Unit :=
  assert_cond (ds.length ≤ 32) >>= fun _ =>
  ds.forM (fun d => validate_voting_public_key d.voting_public_key)

/-- The `voting_key_fields_provided` contribution of `voting_public_key`
(`is not None` check) in `_validate_governance_registration_parameters`,
validating the key in place when present. -/
def countVotingKeyField (p : GovParams) : Except WireError Nat :=
  match p.voting_public_key with
  | some k => validate_voting_public_key k >>= fun _ => pure 1
  | none => pure 0

/-- The `voting_key_fields_provided` contribution of `delegations`
(truthiness check), validating format and delegations in place when
non-empty. -/
def countDelegationsField (p : GovParams) : Except WireError Nat :=
  if p.delegations.isEmpty then pure 0
  else
    assert_cond (p.format == GovFormat.CIP36) >>= fun _ =>
    validate_delegations p.delegations >>= fun _ =>
    pure 1

/-- `_validate_governance_registration_parameters`: exactly one of
`voting_public_key` (checked against `is not None`) and `delegations`
(checked by truthiness, i.e. non-emptiness) must be present, delegations
and an explicit voting purpose require the CIP36 format, the staking path
must match the schema and the reward address must validate and not be
BYRON. -/
def validate_governance_registration_parameters (p : GovParams) :
    Except WireError Unit :=
  countVotingKeyField p >>= fun n1 =>
  countDelegationsField p >>= fun n2 =>
  assert_cond ((n1 + n2) == 1) >>= fun _ =>
  assert_cond p.staking_path_ok >>= fun _ =>
  assert_cond (!p.reward_address_is_byron) >>= fun _ =>
  assert_cond p.reward_address_params_ok >>= fun _ =>
  match p.voting_purpose with
  | some _ => assert_cond (p.format == GovFormat.CIP36)
  | none => pure ()

/-- The `fields_provided` contribution of `auxiliary_data.hash` in
`validate` (truthiness: absent or empty bytes are falsy), validating the
length in place when present. -/
def countHashField (ad : CardanoTxAuxiliaryData) : Except WireError Nat :=
  match ad.hash with
  | some h =>
      if h.isEmpty then pure 0
      else assert_cond (h.length == 32) >>= fun _ => pure 1
  | none => pure 0

/-- The `fields_provided` contribution of
`auxiliary_data.governance_registration_parameters` in `validate`,
validating the parameters in place when present. -/
def countGovField (ad : CardanoTxAuxiliaryData) : Except WireError Nat :=
  match ad.governance_registration_parameters with
  | some p => validate_governance_registration_parameters p >>= fun _ => pure 1
  | none => pure 0

/-- `validate`: count the provided fields, validating each provided one in
place, then require exactly one provided. -/
def validate (auxiliary_data : CardanoTxAuxiliaryData) :
    Except WireError Unit :=
  countHashField auxiliary_data >>= fun n1 =>
  countGovField auxiliary_data >>= fun n2 =>
  assert_cond ((n1 + n2) == 1)

/-- Truthiness of `auxiliary_data.hash` in `validate`. -/
def hashProvided (ad : CardanoTxAuxiliaryData) : Bool :=
  match ad.hash with
  | some h => !h.isEmpty
  | none => false

/-- Truthiness of `auxiliary_data.governance_registration_parameters`. -/
def govProvided (ad : CardanoTxAuxiliaryData) : Bool :=
  ad.governance_registration_parameters.isSome

/-- Every error a Cardano auxiliary-data validator can produce is the one
`assert_cond` raises: `wire.ProcessError("Invalid auxiliary data")`. -/
def OnlyInvalidErr {α : Type} (x : Except WireError α) : Prop :=
  ∀ e, x = .error e → e = .processError "Invalid auxiliary data"

/-! ## Recovery abort (`src/core/src/apps/management/recovery_device/homescreen.py`) -/

/-- The persistent device storage fields touched by recovery. -/
structure DeviceStorage where
  mnemonic_secret : Option (List Nat) := none
  slip39_identifier : Option Nat := none
  slip39_iteration_exponent : Option Nat := none
deriving DecidableEq, Repr

/-- The whole storage: the device namespace plus the recovery-progress
record (`storage.recovery`), which also holds the dry-run flag. -/
structure Storage where
  device : DeviceStorage := {}
  recovery_in_progress : Bool := false
  dry_run_flag : Bool := false
deriving DecidableEq, Repr

/-- `storage.wipe()`: clears the entire storage, device fields and
recovery progress alike. -/
def storage_wipe (_ : Storage) : Storage := {}

/-- `storage_recovery.end_progress()`: ends only the recovery-progress
record, leaving device storage intact. -/
def end_progress (s : Storage) : Storage :=
  { s with recovery_in_progress := false, dry_run_flag := false }

/-- Outcome of `_continue_recovery_process`: normal success, or the
`recover.RecoveryAborted` exception. -/
inductive RecoveryOutcome
  | success (msg : String)
  | recoveryAborted
deriving DecidableEq, Repr

/-- Result of `recovery_process` as seen by its caller: the returned
`Success` message, or the `wire.ActionCancelled` exception. -/
inductive RecResult
  | ok (msg : String)
  | actionCancelled
deriving DecidableEq, Repr

/-- Embedding of `recovery_process`: run `_continue_recovery_process`
(whose outcome is passed in, its interactive body being out of scope); on
`RecoveryAborted`, consult the dry-run flag — a dry run only ends the
recovery-progress record, otherwise the whole storage is wiped — and then
raise `wire.ActionCancelled`. -/
def recovery_process (st : Storage) (inner : RecoveryOutcome) :
    RecResult × Storage :=
  match inner with
  | .success m => (.ok m, st)
  | .recoveryAborted =>
    if st.dry_run_flag then (.actionCancelled, end_progress st)
    else (.actionCancelled, storage_wipe st)

/-! ## Helper lemmas: the dispatcher's accept sets -/

/-- On every successful dispatch, the accept set returned with the response
is the table column for the handled request kind. -/
theorem dispatch_accept (km : Nat) (st : Session) (msg : Request)
    (out : DispatchOut) (h : monero_dispatch km st msg = .ok out) :
    out.2.2 = tableAccept msg.kind := by
  cases msg <;>
    simp only [monero_dispatch, Request.kind, tableAccept,
      init_transaction, set_input, input_vini, all_inputs_set, set_output,
      all_outputs_set, sign_input, Except.map] at h ⊢
  all_goals repeat' split at h
  all_goals first
    | (injection h with h2; rw [← h2])
    | simp_all

/-- A successful dispatch returns an empty accept set exactly for the FINAL
request. -/
theorem dispatch_accept_none (km : Nat) (st : Session) (msg : Request)
    (out : DispatchOut) (h : monero_dispatch km st msg = .ok out) :
    (out.2.2 = none ↔ msg.kind = MsgKind.FinalRequest) := by
  have ha := dispatch_accept km st msg out h
  rw [ha]
  cases msg <;> simp_all [tableAccept, Request.kind, monero_dispatch]

/-- Accepted successor kinds never move backwards in the phase order. -/
theorem kindStep_phase_le (a b : MsgKind) (h : kindStep a b) :
    phaseIdx a ≤ phaseIdx b := by
  revert h
  cases a <;> cases b <;> decide

/-! ## Helper lemmas: the request/response loop -/

/-- Inversion of `RunResult.addW` at a `finished` outcome. -/
theorem addW_finished (resp : Response) (x : RunResult) (w : List Response)
    (fr : Response) :
    x.addW resp = .finished w fr ↔
      ∃ w', x = .finished w' fr ∧ w = resp :: w' := by
  cases x <;> simp only [RunResult.addW] <;> aesop

/-- Unfolding `signLoop` when the dispatcher raises. -/
theorem signLoop_error (km : Nat) (st : Session) (cur : Request)
    (rest : List Request) (e : EngineError)
    (hd : monero_dispatch km st cur = .error e) :
    signLoop km st cur rest = ([], .aborted [] e st) := by
  rw [signLoop.eq_def, hd]

/-- Unfolding `signLoop` when the accept set is empty (`break`). -/
theorem signLoop_final (km : Nat) (st st' : Session) (cur : Request)
    (rest : List Request) (resp : Response)
    (hd : monero_dispatch km st cur = .ok (st', resp, none)) :
    signLoop km st cur rest = ([], .finished [] resp) := by
  rw [signLoop.eq_def, hd]

/-- Unfolding `signLoop` when the host supplies no further request. -/
theorem signLoop_out (km : Nat) (st st' : Session) (cur : Request)
    (resp : Response) (allowed : List MsgKind)
    (hd : monero_dispatch km st cur = .ok (st', resp, some allowed)) :
    signLoop km st cur [] = ([.wroteResp resp], .outOfInput [resp] allowed st') := by
  rw [signLoop.eq_def, hd]

/-- Unfolding `signLoop` when the next request is of an accepted kind. -/
theorem signLoop_step (km : Nat) (st st' : Session) (cur r : Request)
    (rs : List Request) (resp : Response) (allowed : List MsgKind)
    (hd : monero_dispatch km st cur = .ok (st', resp, some allowed))
    (hk : r.kind ∈ allowed) :
    signLoop km st cur (r :: rs) =
      (.wroteResp resp :: .readReq r :: (signLoop km st' r rs).1,
       (signLoop km st' r rs).2.addW resp) := by
  rw [signLoop.eq_def, hd]
  simp [hk]

/-- Unfolding `signLoop` when the next request is of a kind not accepted. -/
theorem signLoop_reject (km : Nat) (st st' : Session) (cur r : Request)
    (rs : List Request) (resp : Response) (allowed : List MsgKind)
    (hd : monero_dispatch km st cur = .ok (st', resp, some allowed))
    (hk : r.kind ∉ allowed) :
    signLoop km st cur (r :: rs) =
      ([.wroteResp resp, .readReq r],
       .aborted [resp] .protocolSequenceError st') := by
  rw [signLoop.eq_def, hd]
  simp [hk]

/-- Write and read events strictly alternate in every loop trace, starting
with a write: one response is written per accepted request and only then is
the next request read. -/
theorem loop_alternates (km : Nat) :
    ∀ (rest : List Request) (st : Session) (cur : Request),
      altFrom true (signLoop km st cur rest).1 = true := by
  intro rest
  induction rest with
  | nil =>
    intro st cur
    cases hd : monero_dispatch km st cur with
    | error e => rw [signLoop_error km st cur [] e hd]; rfl
    | ok out =>
      obtain ⟨st', resp, acc⟩ := out
      cases acc with
      | none => rw [signLoop_final km st st' cur [] resp hd]; rfl
      | some allowed => rw [signLoop_out km st st' cur resp allowed hd]; rfl
  | cons r rs ih =>
    intro st cur
    cases hd : monero_dispatch km st cur with
    | error e => rw [signLoop_error km st cur (r :: rs) e hd]; rfl
    | ok out =>
      obtain ⟨st', resp, acc⟩ := out
      cases acc with
      | none => rw [signLoop_final km st st' cur (r :: rs) resp hd]; rfl
      | some allowed =>
        by_cases hk : r.kind ∈ allowed
        · rw [signLoop_step km st st' cur r rs resp allowed hd hk]
          simpa [altFrom] using ih st' r
        · rw [signLoop_reject km st st' cur r rs resp allowed hd hk]; rfl

/-- A loop run that finishes normally wrote exactly as many responses as it
read further requests (the final acknowledgment is returned, not written),
and the last request it read was the FINAL request. -/
theorem loop_finished_shape (km : Nat) :
    ∀ (rest : List Request) (st : Session) (cur : Request) (w : List Response)
      (fr : Response),
      (signLoop km st cur rest).2 = .finished w fr →
      countW (signLoop km st cur rest).1 = countR (signLoop km st cur rest).1 ∧
      (lastRead cur (signLoop km st cur rest).1).kind = MsgKind.FinalRequest := by
  intro rest
  induction rest with
  | nil =>
    intro st cur w fr
    cases hd : monero_dispatch km st cur with
    | error e => rw [signLoop_error km st cur [] e hd]; simp
    | ok out =>
      obtain ⟨st', resp, acc⟩ := out
      cases acc with
      | none =>
        rw [signLoop_final km st st' cur [] resp hd]
        intro _
        have hknd := (dispatch_accept_none km st cur (st', resp, none) hd).mp rfl
        simp [countW, countR, lastRead, hknd]
      | some allowed =>
        rw [signLoop_out km st st' cur resp allowed hd]; simp
  | cons r rs ih =>
    intro st cur w fr
    cases hd : monero_dispatch km st cur with
    | error e => rw [signLoop_error km st cur (r :: rs) e hd]; simp
    | ok out =>
      obtain ⟨st', resp, acc⟩ := out
      cases acc with
      | none =>
        rw [signLoop_final km st st' cur (r :: rs) resp hd]
        intro _
        have hknd := (dispatch_accept_none km st cur (st', resp, none) hd).mp rfl
        simp [countW, countR, lastRead, hknd]
      | some allowed =>
        by_cases hk : r.kind ∈ allowed
        · rw [signLoop_step km st st' cur r rs resp allowed hd hk]
          intro hfin
          rw [addW_finished] at hfin
          obtain ⟨w', hw', rfl⟩ := hfin
          obtain ⟨hc, hl⟩ := ih st' r w' fr hw'
          refine ⟨?_, ?_⟩
          · simpa [countW, countR] using hc
          · simpa [lastRead] using hl
        · rw [signLoop_reject km st st' cur r rs resp allowed hd hk]; simp

/-! ## Claim theorems -/

/-- C1: when the ALL_OUTPUTS_SET barrier request is processed (after every
declared output has been processed), the engine compares the running
pseudo-output commitment sum with the running output-commitment sum in the
group's scalar arithmetic; on equality the session advances with only
SIGN_INPUT accepted next, and on a mismatch the session is aborted with
IntegrityError, producing no signature. -/
theorem C1_balance_check (km : Nat) (st : Session) (rest : List Request)
    (hdone : st.outputCursor = st.expOutputs) :
    (st.pseudoSum % curveOrder = st.outSum % curveOrder →
        monero_dispatch km st .allOutSet =
          .ok (st, .outputsSetAck, some [MsgKind.SignInputRequest])) ∧
    (st.pseudoSum % curveOrder ≠ st.outSum % curveOrder →
        monero_dispatch km st .allOutSet = .error .integrityError ∧
        signLoop km st .allOutSet rest =
          ([], .aborted [] .integrityError st)) := by
  constructor
  · intro hEq
    simp [monero_dispatch, all_outputs_set, hdone, hEq, Except.map]
  · intro hNe
    have hd : monero_dispatch km st .allOutSet = .error .integrityError := by
      simp [monero_dispatch, all_outputs_set, hdone, hNe, Except.map]
    exact ⟨hd, signLoop_error km st .allOutSet rest .integrityError hd⟩

/-- Witness for C1 at a balanced and an unbalanced concrete session. -/
theorem C1_balance_check_witness :
    monero_dispatch 0 initialSession .allOutSet =
      .ok (initialSession, .outputsSetAck, some [MsgKind.SignInputRequest]) ∧
    (monero_dispatch 0 { initialSession with pseudoSum := 1 } .allOutSet =
        .error .integrityError ∧
     signLoop 0 { initialSession with pseudoSum := 1 } .allOutSet [] =
        ([], .aborted [] .integrityError
               { initialSession with pseudoSum := 1 })) :=
  ⟨(C1_balance_check 0 initialSession [] rfl).1 (by decide),
   (C1_balance_check 0 { initialSession with pseudoSum := 1 } [] rfl).2
     (by decide)⟩

/-- C2: on every successful dispatch, the accept set returned alongside the
response is exactly the table column for the request kind just handled
(INIT ↦ SET_INPUT; SET_INPUT ↦ SET_INPUT or INPUT_VINI; INPUT_VINI ↦
INPUT_VINI or ALL_INPUTS_SET; ALL_INPUTS_SET ↦ SET_OUTPUT; SET_OUTPUT ↦
SET_OUTPUT or ALL_OUTPUTS_SET; ALL_OUTPUTS_SET ↦ SIGN_INPUT; SIGN_INPUT ↦
SIGN_INPUT or FINAL); after FINAL the accept set is `none` and the loop
returns without reading any further request. -/
theorem C2_accept_sets :
    (∀ (km : Nat) (st : Session) (msg : Request) (out : DispatchOut),
        monero_dispatch km st msg = .ok out →
        out.2.2 = tableAccept msg.kind) ∧
    (∀ (km : Nat) (st : Session) (rest : List Request),
        signLoop km st .finalReq rest =
          ([], .finished [] (Response.finalAck st.sigs))) :=
  ⟨dispatch_accept, fun km st rest =>
    signLoop_final km st { st with secret := none } .finalReq rest
      (Response.finalAck st.sigs) rfl⟩

/-- Witness for C2: a successful INIT dispatch returns the accept set of
the table's INIT row. -/
theorem C2_accept_sets_witness :
    (({ initialSession with
          expInputs := 1,
          expOutputs := 2,
          secret := some (deriveSecret 7) },
       Response.initAck,
       some [MsgKind.SetInputRequest]) : DispatchOut).2.2 =
      tableAccept (Request.kind (.initReq 1 2)) :=
  C2_accept_sets.1 7 initialSession (.initReq 1 2) _ rfl

/-- C3: a request whose kind is not in the currently legal accept set is
rejected — the loop aborts the session with ProtocolSequenceError without
dispatching the request to any handler; likewise a session can only start
with an INIT request. -/
theorem C3_wrong_kind_rejected :
    (∀ (km : Nat) (st st' : Session) (cur r : Request) (rs : List Request)
        (resp : Response) (allowed : List MsgKind),
        monero_dispatch km st cur = .ok (st', resp, some allowed) →
        r.kind ∉ allowed →
        signLoop km st cur (r :: rs) =
          ([.wroteResp resp, .readReq r],
           .aborted [resp] .protocolSequenceError st')) ∧
    (∀ (km : Nat) (r : Request) (rs : List Request),
        r.kind ≠ MsgKind.InitRequest →
        sign_tx km (r :: rs) =
          ([.readReq r], .aborted [] .protocolSequenceError initialSession)) := by
  constructor
  · intro km st st' cur r rs resp allowed hd hk
    exact signLoop_reject km st st' cur r rs resp allowed hd hk
  · intro km r rs hk
    simp [sign_tx, hk]

/-- Witness for C3: after INIT only SET_INPUT is legal, so an
ALL_OUTPUTS_SET request aborts the session; and a session opened by a
SET_INPUT request is rejected outright. -/
theorem C3_wrong_kind_rejected_witness :
    signLoop 0 initialSession (.initReq 1 1) [.allOutSet] =
      ([.wroteResp .initAck, .readReq .allOutSet],
       .aborted [.initAck] .protocolSequenceError
         { initialSession with
             expInputs := 1,
             expOutputs := 1,
             secret := some (deriveSecret 0) }) ∧
    sign_tx 0 [.setInput 0 0] =
      ([.readReq (.setInput 0 0)],
       .aborted [] .protocolSequenceError initialSession) :=
  ⟨C3_wrong_kind_rejected.1 0 initialSession
      { initialSession with
          expInputs := 1,
          expOutputs := 1,
          secret := some (deriveSecret 0) }
      (.initReq 1 1) .allOutSet [] .initAck [MsgKind.SetInputRequest]
      rfl (by decide),
   C3_wrong_kind_rejected.2 0 (.setInput 0 0) [] (by decide)⟩

/-- C4: each kind in an accept set lies no earlier in the phase order than
the kind whose handling produced that accept set (first conjunct links the
dispatcher's accept sets to the table), so along any sequence of requests
in which every kind is accepted by its predecessor the phase index is
non-decreasing. -/
theorem C4_phase_monotone :
    (∀ (km : Nat) (st : Session) (msg : Request) (out : DispatchOut),
        monero_dispatch km st msg = .ok out →
        out.2.2 = tableAccept msg.kind) ∧
    (∀ (k : MsgKind) (ks : List MsgKind), List.Chain kindStep k ks →
        List.Chain (fun a b => phaseIdx a ≤ phaseIdx b) k ks) :=
  ⟨dispatch_accept,
   fun _ _ h => List.Chain.imp (fun a b hab => kindStep_phase_le a b hab) h⟩

/-- Witness for C4: the happy-path request sequence is a `kindStep` chain,
and its phase indices are non-decreasing. -/
theorem C4_phase_monotone_witness :
    List.Chain (fun a b => phaseIdx a ≤ phaseIdx b) MsgKind.InitRequest
      [MsgKind.SetInputRequest, MsgKind.SetInputRequest,
       MsgKind.InputViniRequest, MsgKind.AllInputsSetRequest,
       MsgKind.SetOutputRequest, MsgKind.AllOutSetRequest,
       MsgKind.SignInputRequest, MsgKind.FinalRequest] :=
  C4_phase_monotone.2 _ _ (by
    repeat' refine List.Chain.cons (by decide) ?_
    exact List.Chain.nil)

/-- `tag` is injective in the index and the payload for a fixed secret
(the idealisation of the MAC's collision resistance). -/
theorem tag_inj {s i p i2 p2 : Nat} (h : tag s i p = tag s i2 p2) :
    i = i2 ∧ p = p2 := by
  unfold tag derive_item_key at h
  obtain ⟨h1, h2⟩ := Nat.pair_eq_pair.mp h
  exact ⟨(Nat.pair_eq_pair.mp h1).2, h2⟩

/-- C5: a tag issued for `(index, payload)` under a session secret always
verifies for exactly those values; verification fails for a tampered
payload, for a tag replayed under a different index, and for any altered
tag — and inside the engine a failed verification aborts the INPUT_VINI
or SIGN_INPUT handler with IntegrityError. -/
theorem C5_offload_roundtrip :
    (∀ s i p, verify s i p (tag s i p) = true) ∧
    (∀ s i p i2 p2 t2, t2 = tag s i p → (i2, p2) ≠ (i, p) →
        verify s i2 p2 t2 = false) ∧
    (∀ s i p t2, t2 ≠ tag s i p → verify s i p t2 = false) ∧
    (∀ (km : Nat) (st : Session) (payload tagv : Nat),
        st.viniCursor < st.expInputs →
        verify (st.secret.getD 0) st.viniCursor payload tagv = false →
        monero_dispatch km st (.inputVini st.viniCursor payload tagv) =
          .error .integrityError) ∧
    (∀ (km : Nat) (st : Session) (payload tagv : Nat),
        st.signCursor < st.expInputs →
        verify (st.secret.getD 0) st.signCursor payload tagv = false →
        monero_dispatch km st (.signInput st.signCursor payload tagv) =
          .error .integrityError) := by
  refine ⟨?_, ?_, ?_, ?_, ?_⟩
  · intro s i p
    simp [verify]
  · intro s i p i2 p2 t2 ht hne
    subst ht
    have hneq : tag s i p ≠ tag s i2 p2 := by
      intro hEq
      obtain ⟨hi, hp⟩ := tag_inj hEq
      exact hne (by simp [hi, hp])
    exact beq_false_of_ne hneq
  · intro s i p t2 ht
    exact beq_false_of_ne ht
  · intro km st payload tagv hlt hv
    simp [monero_dispatch, input_vini, hv, Nat.not_le.mpr hlt, Except.map]
  · intro km st payload tagv hlt hv
    simp [monero_dispatch, sign_input, hv, Nat.not_le.mpr hlt, Except.map]

/-- Witness for C5: a concrete round trip verifies; a wrong index, a wrong
payload and a wrong tag all fail; and a bad tag aborts both verifying
handlers with IntegrityError. -/
theorem C5_offload_roundtrip_witness :
    verify 5 0 9 (tag 5 0 9) = true ∧
    verify 5 1 9 (tag 5 0 9) = false ∧
    verify 5 0 8 (tag 5 0 9) = false ∧
    verify 5 0 9 (tag 5 0 9 + 1) = false ∧
    monero_dispatch 0 { initialSession with expInputs := 1 }
        (.inputVini 0 3 4) = .error .integrityError ∧
    monero_dispatch 0 { initialSession with expInputs := 1 }
        (.signInput 0 3 4) = .error .integrityError :=
  ⟨C5_offload_roundtrip.1 5 0 9,
   C5_offload_roundtrip.2.1 5 0 9 1 9 _ rfl (by decide),
   C5_offload_roundtrip.2.1 5 0 9 0 8 _ rfl (by decide),
   C5_offload_roundtrip.2.2.1 5 0 9 _ (by decide),
   C5_offload_roundtrip.2.2.2.1 0 { initialSession with expInputs := 1 }
     3 4 (by decide) (by decide),
   C5_offload_roundtrip.2.2.2.2 0 { initialSession with expInputs := 1 }
     3 4 (by decide) (by decide)⟩

/-- C6: in every phase whose requests carry a per-item index, a request
whose declared index differs from the engine's current cursor — whether a
replayed already-processed index or a skipped-ahead index — is rejected
with ProtocolSequenceError, and a dispatcher error always aborts the loop
without processing the item. -/
theorem C6_index_strictness :
    (∀ (km : Nat) (st : Session) (idx mask : Nat), idx ≠ st.inputCursor →
        monero_dispatch km st (.setInput idx mask) =
          .error .protocolSequenceError) ∧
    (∀ (km : Nat) (st : Session) (idx p t : Nat), idx ≠ st.viniCursor →
        monero_dispatch km st (.inputVini idx p t) =
          .error .protocolSequenceError) ∧
    (∀ (km : Nat) (st : Session) (idx mask : Nat), idx ≠ st.outputCursor →
        monero_dispatch km st (.setOutput idx mask) =
          .error .protocolSequenceError) ∧
    (∀ (km : Nat) (st : Session) (idx p t : Nat), idx ≠ st.signCursor →
        monero_dispatch km st (.signInput idx p t) =
          .error .protocolSequenceError) ∧
    (∀ (km : Nat) (st : Session) (cur : Request) (rest : List Request)
        (e : EngineError), monero_dispatch km st cur = .error e →
        signLoop km st cur rest = ([], .aborted [] e st)) := by
  refine ⟨?_, ?_, ?_, ?_, ?_⟩
  · intro km st idx mask hne
    simp [monero_dispatch, set_input, hne, Except.map]
  · intro km st idx p t hne
    simp [monero_dispatch, input_vini, hne, Except.map]
  · intro km st idx mask hne
    simp [monero_dispatch, set_output, hne, Except.map]
  · intro km st idx p t hne
    simp [monero_dispatch, sign_input, hne, Except.map]
  · intro km st cur rest e hd
    exact signLoop_error km st cur rest e hd

/-- Witness for C6: a duplicate index (0 when the cursor is 1), a
skipped-ahead index (2 when the cursor is 1), wrong indices in the other
indexed phases, and the resulting loop abort, all at concrete inputs. -/
theorem C6_index_strictness_witness :
    monero_dispatch 0 { initialSession with inputCursor := 1 }
        (.setInput 0 5) = .error .protocolSequenceError ∧
    monero_dispatch 0 { initialSession with inputCursor := 1 }
        (.setInput 2 5) = .error .protocolSequenceError ∧
    monero_dispatch 0 initialSession (.inputVini 1 0 0) =
      .error .protocolSequenceError ∧
    monero_dispatch 0 initialSession (.setOutput 3 0) =
      .error .protocolSequenceError ∧
    monero_dispatch 0 initialSession (.signInput 2 0 0) =
      .error .protocolSequenceError ∧
    signLoop 0 { initialSession with inputCursor := 1 } (.setInput 0 5) [] =
      ([], .aborted [] .protocolSequenceError
             { initialSession with inputCursor := 1 }) :=
  ⟨C6_index_strictness.1 0 { initialSession with inputCursor := 1 } 0 5
     (by decide),
   C6_index_strictness.1 0 { initialSession with inputCursor := 1 } 2 5
     (by decide),
   C6_index_strictness.2.1 0 initialSession 1 0 0 (by decide),
   C6_index_strictness.2.2.1 0 initialSession 3 0 (by decide),
   C6_index_strictness.2.2.2.1 0 initialSession 2 0 0 (by decide),
   C6_index_strictness.2.2.2.2 0 { initialSession with inputCursor := 1 }
     (.setInput 0 5) [] .protocolSequenceError
     (C6_index_strictness.1 0 { initialSession with inputCursor := 1 } 0 5
       (by decide))⟩

/-- C7: a successful dispatch returns an empty accept set exactly for the
FINAL request (the unique loop-exit condition); in every loop trace writes
and reads strictly alternate starting with a write (one response per
accepted request, written before the next request is read); and a normally
finished run read exactly one request per written response — the final
acknowledgment is the returned value, not a written one — with the FINAL
request as the last request read. -/
theorem C7_loop_shape :
    (∀ (km : Nat) (st : Session) (msg : Request) (out : DispatchOut),
        monero_dispatch km st msg = .ok out →
        (out.2.2 = none ↔ msg.kind = MsgKind.FinalRequest)) ∧
    (∀ (km : Nat) (rest : List Request) (st : Session) (cur : Request),
        altFrom true (signLoop km st cur rest).1 = true) ∧
    (∀ (km : Nat) (rest : List Request) (st : Session) (cur : Request)
        (w : List Response) (fr : Response),
        (signLoop km st cur rest).2 = .finished w fr →
        countW (signLoop km st cur rest).1 =
          countR (signLoop km st cur rest).1 ∧
        (lastRead cur (signLoop km st cur rest).1).kind =
          MsgKind.FinalRequest) :=
  ⟨dispatch_accept_none, loop_alternates, loop_finished_shape⟩

/-- Witness for C7 on the full happy-path run (1 input, 1 output): the run
finishes, writes as many responses as it reads further requests, and ends
at the FINAL request. -/
theorem C7_loop_shape_witness :
    countW (signLoop 0 initialSession (.initReq 1 1)
      [.setInput 0 5, .inputVini 0 5 27, .allInputsSet, .setOutput 0 5,
       .allOutSet, .signInput 0 5 27, .finalReq]).1 =
      countR (signLoop 0 initialSession (.initReq 1 1)
        [.setInput 0 5, .inputVini 0 5 27, .allInputsSet, .setOutput 0 5,
         .allOutSet, .signInput 0 5 27, .finalReq]).1 ∧
    (lastRead (.initReq 1 1) (signLoop 0 initialSession (.initReq 1 1)
      [.setInput 0 5, .inputVini 0 5 27, .allInputsSet, .setOutput 0 5,
       .allOutSet, .signInput 0 5 27, .finalReq]).1).kind =
      MsgKind.FinalRequest :=
  C7_loop_shape.2.2 0
    [.setInput 0 5, .inputVini 0 5 27, .allInputsSet, .setOutput 0 5,
     .allOutSet, .signInput 0 5 27, .finalReq]
    initialSession (.initReq 1 1)
    [.initAck, .setInputAck 5 27, .viniAck, .inputsSetAck, .setOutputAck,
     .outputsSetAck, .signInputAck 25]
    (.finalAck [25]) (by decide)

/-- C8 (amended): an INIT request declaring an input or output count above
the protocol ceiling aborts the run with LimitExceededError raised during
INIT processing, before any accumulation and before any session secret is
derived, and no response is written; the Session object itself, however,
is allocated by `sign_tx` (`state = State(ctx)`) before the INIT request
is dispatched, and is still empty — no secret, zero accumulators — at the
abort. -/
theorem C8_limit_ceiling (km nIn nOut : Nat) (rs : List Request)
    (h : maxItemCount < nIn ∨ maxItemCount < nOut) :
    sign_tx km (.initReq nIn nOut :: rs) =
      ([.readReq (.initReq nIn nOut), .sessionCreated],
       .aborted [] .limitExceededError initialSession) ∧
    initialSession.secret = none ∧ initialSession.pseudoSum = 0 ∧
    initialSession.outSum = 0 := by
  have hd : monero_dispatch km initialSession (.initReq nIn nOut) =
      .error .limitExceededError := by
    simp [monero_dispatch, init_transaction, h, Except.map]
  refine ⟨?_, rfl, rfl, rfl⟩
  simp [sign_tx, Request.kind,
    signLoop_error km initialSession (.initReq nIn nOut) rs
      .limitExceededError hd]

/-- Witness for C8 (amended) at a concrete over-limit INIT. -/
theorem C8_limit_ceiling_witness :
    sign_tx 3 [.initReq (maxItemCount + 1) 0] =
      ([.readReq (.initReq (maxItemCount + 1) 0), .sessionCreated],
       .aborted [] .limitExceededError initialSession) :=
  (C8_limit_ceiling 3 (maxItemCount + 1) 0 [] (by decide)).1

/-- C8 counterexample: at a concrete over-limit INIT the engine does raise
LimitExceededError, but the run's event trace contains the
session-allocation event — `sign_tx` executes `state = State(ctx)` before
dispatching the INIT request — so it is false that no Session is created
before the error. -/
theorem C8_limit_ceiling_counterexample :
    (sign_tx 0 [.initReq (maxItemCount + 1) 0]).2 =
      .aborted [] .limitExceededError initialSession ∧
    Ev.sessionCreated ∈ (sign_tx 0 [.initReq (maxItemCount + 1) 0]).1 := by
  decide

/-! ## Helper lemmas: Cardano auxiliary-data validation -/

/-- Decomposition of a failing `Except` bind. -/
theorem bind_error_elim {α β : Type} {x : Except WireError α}
    {f : α → Except WireError β} {e : WireError}
    (h : x >>= f = .error e) :
    x = .error e ∨ ∃ a, x = .ok a ∧ f a = .error e := by
  cases x with
  | error e2 =>
    left
    simpa [Bind.bind, Except.bind] using h
  | ok a =>
    right
    exact ⟨a, rfl, by simpa [Bind.bind, Except.bind] using h⟩

/-- `OnlyInvalidErr` is closed under bind. -/
theorem onlyInvalid_bind {α β : Type} {x : Except WireError α}
    {f : α → Except WireError β} (hx : OnlyInvalidErr x)
    (hf : ∀ a, OnlyInvalidErr (f a)) : OnlyInvalidErr (x >>= f) := by
  intro e he
  rcases bind_error_elim he with h1 | ⟨a, _, h2⟩
  · exact hx _ h1
  · exact hf a _ h2

/-- `pure` never fails. -/
theorem onlyInvalid_pure {α : Type} (a : α) :
    OnlyInvalidErr (pure (f := Except WireError) a) := by
  intro e he
  simp [pure, Except.pure] at he

/-- `assert_cond` fails only with the fixed ProcessError. -/
theorem onlyInvalid_assert (c : Bool) : OnlyInvalidErr (assert_cond c) := by
  intro e he
  unfold assert_cond at he
  split at he <;> simp_all

/-- `_validate_voting_public_key` fails only with the fixed ProcessError. -/
theorem onlyInvalid_vpk (k : List Nat) :
    OnlyInvalidErr (validate_voting_public_key k) :=
  onlyInvalid_assert _

/-- The delegation key loop fails only with the fixed ProcessError. -/
theorem onlyInvalid_forM (ds : List GovDelegation) :
    OnlyInvalidErr
      (ds.forM (fun d => validate_voting_public_key d.voting_public_key)) := by
  induction ds with
  | nil =>
    intro e he
    simp [List.forM, pure, Except.pure] at he
  | cons d ds ih =>
    intro e he
    simp only [List.forM] at he
    rcases bind_error_elim he with h1 | ⟨a, _, h2⟩
    · exact onlyInvalid_vpk _ _ h1
    · exact ih _ h2

/-- `_validate_delegations` fails only with the fixed ProcessError. -/
theorem onlyInvalid_delegations (ds : List GovDelegation) :
    OnlyInvalidErr (validate_delegations ds) := by
  unfold validate_delegations
  exact onlyInvalid_bind (onlyInvalid_assert _)
    (fun _ => onlyInvalid_forM ds)

/-- `countVotingKeyField` fails only with the fixed ProcessError. -/
theorem onlyInvalid_countVotingKey (p : GovParams) :
    OnlyInvalidErr (countVotingKeyField p) := by
  unfold countVotingKeyField
  cases p.voting_public_key with
  | some k =>
    exact onlyInvalid_bind (onlyInvalid_vpk k) (fun _ => onlyInvalid_pure _)
  | none => exact onlyInvalid_pure _

/-- `countDelegationsField` fails only with the fixed ProcessError. -/
theorem onlyInvalid_countDelegations (p : GovParams) :
    OnlyInvalidErr (countDelegationsField p) := by
  unfold countDelegationsField
  split
  · exact onlyInvalid_pure _
  · exact onlyInvalid_bind (onlyInvalid_assert _)
      (fun _ => onlyInvalid_bind (onlyInvalid_delegations _)
        (fun _ => onlyInvalid_pure _))

/-- `_validate_governance_registration_parameters` fails only with the
fixed ProcessError. -/
theorem onlyInvalid_gov (p : GovParams) :
    OnlyInvalidErr (validate_governance_registration_parameters p) := by
  unfold validate_governance_registration_parameters
  apply onlyInvalid_bind (onlyInvalid_countVotingKey p)
  intro n1
  apply onlyInvalid_bind (onlyInvalid_countDelegations p)
  intro n2
  apply onlyInvalid_bind (onlyInvalid_assert _)
  intro u1
  apply onlyInvalid_bind (onlyInvalid_assert _)
  intro u2
  apply onlyInvalid_bind (onlyInvalid_assert _)
  intro u3
  apply onlyInvalid_bind (onlyInvalid_assert _)
  intro u4
  cases p.voting_purpose with
  | some v => exact onlyInvalid_assert _
  | none => exact onlyInvalid_pure _

/-- `countHashField` fails only with the fixed ProcessError. -/
theorem onlyInvalid_countHash (ad : CardanoTxAuxiliaryData) :
    OnlyInvalidErr (countHashField ad) := by
  unfold countHashField
  cases ad.hash with
  | some h =>
    dsimp only
    split
    · exact onlyInvalid_pure _
    · exact onlyInvalid_bind (onlyInvalid_assert _)
        (fun _ => onlyInvalid_pure _)
  | none => exact onlyInvalid_pure _

/-- `countGovField` fails only with the fixed ProcessError. -/
theorem onlyInvalid_countGov (ad : CardanoTxAuxiliaryData) :
    OnlyInvalidErr (countGovField ad) := by
  unfold countGovField
  cases ad.governance_registration_parameters with
  | some p =>
    exact onlyInvalid_bind (onlyInvalid_gov p) (fun _ => onlyInvalid_pure _)
  | none => exact onlyInvalid_pure _

/-- `validate` fails only with the fixed ProcessError. -/
theorem onlyInvalid_validate (ad : CardanoTxAuxiliaryData) :
    OnlyInvalidErr (validate ad) := by
  unfold validate
  apply onlyInvalid_bind (onlyInvalid_countHash ad)
  intro n1
  apply onlyInvalid_bind (onlyInvalid_countGov ad)
  intro n2
  exact onlyInvalid_assert _

/-- Characterisation of a successful `Except` bind. -/
theorem bind_ok_iff {α β : Type} {x : Except WireError α}
    {f : α → Except WireError β} {b : β} :
    x >>= f = .ok b ↔ ∃ a, x = .ok a ∧ f a = .ok b := by
  cases x <;> simp [Bind.bind, Except.bind]

/-- Characterisation of a successful `Except` bind with `Unit` payload. -/
theorem bind_unit_ok_iff {β : Type} {x : Except WireError Unit}
    {f : Unit → Except WireError β} {b : β} :
    x >>= f = .ok b ↔ x = .ok () ∧ f () = .ok b := by
  cases x with
  | ok u => cases u; simp [Bind.bind, Except.bind]
  | error e => simp [Bind.bind, Except.bind]

/-- `assert_cond` succeeds exactly when the condition holds. -/
theorem assert_cond_ok_iff {c : Bool} : assert_cond c = .ok () ↔ c = true := by
  unfold assert_cond
  split <;> simp_all

/-- Success characterisation of the hash-field count in `validate`. -/
theorem countHashField_ok (ad : CardanoTxAuxiliaryData) (n : Nat) :
    countHashField ad = .ok n ↔
      (hashProvided ad = false ∧ n = 0) ∨
      (hashProvided ad = true ∧ (ad.hash.getD []).length = 32 ∧ n = 1) := by
  unfold countHashField hashProvided
  cases ad.hash with
  | none => simp [pure, Except.pure, eq_comm]
  | some h =>
    by_cases he : h.isEmpty
    · simp [he, pure, Except.pure, eq_comm]
    · dsimp only
      rw [if_neg he, bind_unit_ok_iff, assert_cond_ok_iff]
      constructor
      · rintro ⟨hl, hn⟩
        simp_all [pure, Except.pure, beq_iff_eq]
      · rintro (⟨hfa, _⟩ | ⟨_, hl, hn⟩) <;>
          simp_all [pure, Except.pure, beq_iff_eq]

/-- Success characterisation of the governance-parameters count in
`validate`. -/
theorem countGovField_ok (ad : CardanoTxAuxiliaryData) (n : Nat) :
    countGovField ad = .ok n ↔
      (govProvided ad = false ∧ n = 0) ∨
      (govProvided ad = true ∧
        validate_governance_registration_parameters
          (ad.governance_registration_parameters.getD {}) = .ok () ∧
        n = 1) := by
  unfold countGovField govProvided
  cases ad.governance_registration_parameters with
  | none => simp [pure, Except.pure, eq_comm]
  | some p =>
    cases hv : validate_governance_registration_parameters p with
    | ok u =>
      cases u
      have hred : (validate_governance_registration_parameters p >>= fun _ =>
          (pure 1 : Except WireError Nat)) = pure 1 := by rw [hv]; rfl
      dsimp only
      rw [hred]
      simp [hv, pure, Except.pure, eq_comm]
    | error e => simp [hv, Bind.bind, Except.bind]

/-- C9: Cardano auxiliary-data validation succeeds exactly when exactly
one of the `hash` and `governance_registration_parameters` fields is
provided (hash truthiness: absent or empty is not provided) and the
provided one is itself valid — a provided hash must be exactly 32 bytes —
and every rejection, including neither or both fields provided, raises
`wire.ProcessError("Invalid auxiliary data")`. -/
theorem C9_auxiliary_data_validate (ad : CardanoTxAuxiliaryData) :
    (validate ad = .ok () ↔
      ((hashProvided ad = true ∧ govProvided ad = false ∧
          (ad.hash.getD []).length = 32) ∨
       (hashProvided ad = false ∧ govProvided ad = true ∧
          validate_governance_registration_parameters
            (ad.governance_registration_parameters.getD {}) = .ok ()))) ∧
    (validate ad ≠ .ok () →
      validate ad = .error (.processError "Invalid auxiliary data")) := by
  constructor
  · unfold validate
    simp only [bind_ok_iff, countHashField_ok, countGovField_ok,
      assert_cond_ok_iff]
    constructor
    · rintro ⟨n1, h1, n2, h2, h3⟩
      rcases h1 with ⟨hp, rfl⟩ | ⟨hp, hlen, rfl⟩ <;>
        rcases h2 with ⟨hg, rfl⟩ | ⟨hg, hval, rfl⟩ <;>
        simp_all
    · rintro (⟨hp, hg, hlen⟩ | ⟨hp, hg, hval⟩)
      · exact ⟨1, Or.inr ⟨hp, hlen, rfl⟩, 0, Or.inl ⟨hg, rfl⟩, by decide⟩
      · exact ⟨0, Or.inl ⟨hp, rfl⟩, 1, Or.inr ⟨hg, hval, rfl⟩, by decide⟩
  · intro hne
    cases hvv : validate ad with
    | ok u => cases u; exact absurd hvv hne
    | error e => rw [onlyInvalid_validate ad e hvv]

/-- Witness for C9: providing neither field is rejected with the
ProcessError, and providing exactly a valid 32-byte hash is accepted. -/
theorem C9_auxiliary_data_validate_witness :
    validate ({} : CardanoTxAuxiliaryData) =
      .error (.processError "Invalid auxiliary data") ∧
    validate { hash := some (List.replicate 32 0) } = .ok () :=
  ⟨(C9_auxiliary_data_validate {}).2 (by
      intro h
      rw [show validate ({} : CardanoTxAuxiliaryData) =
          .error (.processError "Invalid auxiliary data") from rfl] at h
      simp at h),
   (C9_auxiliary_data_validate
       { hash := some (List.replicate 32 0) }).1.mpr (.inl (by decide))⟩

/-- C10: when device recovery is aborted, the storage effect before
`wire.ActionCancelled` propagates depends on the dry-run flag — a real
recovery abort wipes the entire storage, while a dry-run abort only ends
the recovery-progress record and leaves device storage intact. -/
theorem C10_recovery_abort (st : Storage) :
    (st.dry_run_flag = false →
        recovery_process st .recoveryAborted =
          (.actionCancelled, storage_wipe st) ∧
        (recovery_process st .recoveryAborted).2 = ({} : Storage)) ∧
    (st.dry_run_flag = true →
        recovery_process st .recoveryAborted =
          (.actionCancelled, end_progress st) ∧
        (recovery_process st .recoveryAborted).2.device = st.device ∧
        (recovery_process st .recoveryAborted).2.recovery_in_progress =
          false) := by
  constructor
  · intro hdry
    simp [recovery_process, hdry, storage_wipe]
  · intro hdry
    simp [recovery_process, hdry, end_progress]

/-- Witness for C10: a non-dry-run abort wipes a concrete storage holding
a mnemonic secret; a dry-run abort keeps the secret and only ends the
recovery progress. -/
theorem C10_recovery_abort_witness :
    recovery_process
        { device := { mnemonic_secret := some [3] }, recovery_in_progress := true }
        .recoveryAborted = (.actionCancelled, ({} : Storage)) ∧
    (recovery_process
        { device := { mnemonic_secret := some [3] }, recovery_in_progress := true, dry_run_flag := true }
        .recoveryAborted).2.device =
      ({ mnemonic_secret := some [3] } : DeviceStorage) :=
  ⟨((C10_recovery_abort
      { device := { mnemonic_secret := some [3] }, recovery_in_progress := true }).1
      rfl).1,
   ((C10_recovery_abort
      { device := { mnemonic_secret := some [3] }, recovery_in_progress := true, dry_run_flag := true }).2
      rfl).2.1⟩

end Spec2Proof
